import Mathlib

deriving instance DecidableEq for Except

/-!
Verification development for the dpop repository.

The two source files are modelled by a shallow embedding:

* src/dpop/db.py — the LAMDA database reader: a line-oriented parser built on
  a skip-to-marker loop, producing ordered mappings of energy levels and
  radiative transitions, plus the partition function Z.
* src/dpop/diagram.py — the population-diagram calculator: the public
  PopDiagram class (whose calc and plot bodies are pass) and the
  module-private accumulate-and-fit class.

Python floats are modelled as real numbers; values parsed from decimal
literals are modelled as exact rationals.  A file stream is modelled as the
list of its lines, each line without its trailing newline.  Raised Python
exceptions are modelled by an error outcome carrying the exception class
name; the non-terminating skip loop of DataBase._skip_lines at end of
stream is modelled by a distinguished outcome PErr.hang.
-/

namespace Dpop

/- ### String primitives used by the parser -/

/-- Value of a digit list read in base 10 (helper for the int() and float() models). -/
def digitsToNat (cs : List Char) : ℕ :=
  cs.foldl (fun a c => 10 * a + (c.toNat - 48)) 0

/-- A nonempty all-digit character list parsed in base 10; anything else is rejected. -/
def parseNatDigits (cs : List Char) : Option ℕ :=
  if cs.isEmpty then none
  else if cs.all Char.isDigit then some (digitsToNat cs) else none

/-- Python str.strip: drop leading and trailing whitespace characters. -/
def stripChars (cs : List Char) : List Char :=
  ((cs.dropWhile Char.isWhitespace).reverse.dropWhile Char.isWhitespace).reverse

/-- Models the Python built-in int() on a decimal string: surrounding whitespace
is ignored and an optional sign is allowed, as on the level/transition count
lines and the transition index fields of a LAMDA file. -/
def pyInt (s : String) : Option ℤ :=
  match stripChars s.toList with
  | [] => none
  | '-' :: ds => (parseNatDigits ds).map (fun n => -(n : ℤ))
  | '+' :: ds => (parseNatDigits ds).map (fun n => (n : ℤ))
  | ds => (parseNatDigits ds).map (fun n => (n : ℤ))

/-- Unsigned decimal mantissa as accepted by Python float(): digits, digits.digits,
.digits or digits. — returned as an exact rational. -/
def parseMantissa (cs : List Char) : Option ℚ :=
  match cs.splitOn '.' with
  | [ip] => (parseNatDigits ip).map (fun n => (n : ℚ))
  | [ip, fp] =>
      if ip.isEmpty && fp.isEmpty then none
      else if ip.all Char.isDigit && fp.all Char.isDigit then
        some ((digitsToNat ip : ℚ) + (digitsToNat fp : ℚ) / (10 : ℚ) ^ fp.length)
      else none
  | _ => none

/-- Mantissa with an optional leading sign. -/
def parseSignedMantissa (cs : List Char) : Option ℚ :=
  match cs with
  | '-' :: ds => (parseMantissa ds).map (fun q => -q)
  | '+' :: ds => parseMantissa ds
  | ds => parseMantissa ds

/-- Exponent part of a float literal: optional sign and digits. -/
def parseExpPart (cs : List Char) : Option ℤ :=
  match cs with
  | '-' :: ds => (parseNatDigits ds).map (fun n => -(n : ℤ))
  | '+' :: ds => (parseNatDigits ds).map (fun n => (n : ℤ))
  | ds => (parseNatDigits ds).map (fun n => (n : ℤ))

/-- Models the Python built-in float() on a finite decimal literal with optional
sign and optional scientific exponent, returning the exact rational value.
Special values such as inf and nan do not occur in LAMDA numeric fields and
are not modelled. -/
def pyFloat (s : String) : Option ℚ :=
  match ((stripChars s.toList).map (fun c => if c = 'E' then 'e' else c)).splitOn 'e' with
  | [m] => parseSignedMantissa m
  | [m, ex] =>
      match parseSignedMantissa m, parseExpPart ex with
      | some q, some z => some (q * (10 : ℚ) ^ z)
      | _, _ => none
  | _ => none

/-- Helper for splitWS: collect maximal runs of non-whitespace characters. -/
def wordsAux : List Char → List Char → List (List Char)
  | [], cur => if cur.isEmpty then [] else [cur.reverse]
  | c :: cs, cur =>
      if c.isWhitespace then
        if cur.isEmpty then wordsAux cs [] else cur.reverse :: wordsAux cs []
      else wordsAux cs (c :: cur)

/-- Python str.split() with no argument: split on runs of whitespace, with no
empty fields (db.py lines 94 and 113). -/
def splitWS (s : String) : List String :=
  (wordsAux s.toList []).map (fun cs => String.mk cs)

/-- Models re.search with an end-anchored pattern on one line: the line (without
its trailing newline) ends with the given text.  Used for the patterns that
mark the two sections of a LAMDA file (db.py lines 88 and 107). -/
def lineEndsWith (line pat : String) : Bool := pat.toList.isSuffixOf line.toList

/-- Models re.search with a start-anchored pattern on one line. -/
def lineStartsWith (line pat : String) : Bool := pat.toList.isPrefixOf line.toList

/-- The marker test for the energy-levels section (db.py line 88). -/
def isLvlMarker (l : String) : Bool := lineEndsWith l "ENERGY LEVELS"

/-- The header test skipped before the level rows (db.py line 91). -/
def isLvlHeader (l : String) : Bool := lineStartsWith l "!LEVEL"

/-- The marker test for the radiative-transitions section (db.py line 107). -/
def isTransMarker (l : String) : Bool := lineEndsWith l "RADIATIVE TRANSITIONS"

/-- The header test skipped before the transition rows (db.py line 110). -/
def isTransHeader (l : String) : Bool := lineStartsWith l "!TRANS"

/- ### Stream reading -/

/-- Outcome of a parsing step.  exn carries the Python exception class name.
hang models the infinite loop of DataBase._skip_lines when the stream is
exhausted: f.readline() then returns the empty string forever and the loop
never exits, so the program neither returns nor raises. -/
inductive PErr where
  | hang : PErr
  | exn : String → PErr
  deriving DecidableEq

/-- f.readline(): the next line, or the empty string at end of stream. -/
def readLine : List String → String × List String
  | [] => ("", [])
  | l :: ls => (l, ls)

/-- DataBase._skip_lines (db.py lines 29-37): read lines until one matches the
pattern; the matching line is consumed.  None of the patterns used matches the
empty string, so at end of stream the Python loop runs forever — modelled by
PErr.hang. -/
def skipLines (p : String → Bool) : List String → Except PErr (List String)
  | [] => .error .hang
  | l :: ls => if p l then .ok ls else skipLines p ls

/- ### The parsed data model (db.py) -/

/-- One value of the energy_levels mapping (db.py lines 95-99): energy in
inverse centimeters and a dimensionless statistical weight, both exact
rationals from float(). -/
structure LevelEntry where
  energy : ℚ
  weight : ℚ
  deriving DecidableEq

/-- One value of the transitions mapping (db.py lines 116-121): Einstein A
coefficient in inverse seconds, rest frequency in GHz, upper-level energy in
Kelvin. -/
structure TransEntry where
  A_ul : ℚ
  f_rest : ℚ
  E_u : ℚ
  deriving DecidableEq

/-- An OrderedDict is modelled as an association list in insertion order. -/
abbrev LevelsOD := List (String × LevelEntry)

/-- The transitions OrderedDict, keyed by the (upper id, lower id) pair. -/
abbrev TransOD := List ((String × String) × TransEntry)

/-- Python dict insertion: an existing key keeps its position and gets the new
value; a new key is appended. -/
def odInsert {κ β : Type} [DecidableEq κ] (m : List (κ × β)) (k : κ) (v : β) :
    List (κ × β) :=
  if k ∈ m.map Prod.fst then m.map (fun p => if p.1 = k then (k, v) else p)
  else m ++ [(k, v)]

/-- Python list indexing levels[i]: a negative index counts from the end; an
index out of range raises IndexError (modelled as none). -/
def pyListGet {α : Type} (xs : List α) (i : ℤ) : Option α :=
  if 0 ≤ i then xs.get? i.toNat
  else if (-i).toNat ≤ xs.length then xs.get? (xs.length - (-i).toNat) else none

/-- One level row (db.py lines 94-99): split the line on whitespace, field 1 is
the energy, field 2 the weight, field 3 the level identifier, in the order the
source evaluates them (IndexError for a missing field, ValueError for a field
float() rejects). -/
def getLevelLine (line : String) : Except PErr (String × LevelEntry) :=
  let elems := splitWS line
  match elems.get? 1 with
  | none => .error (.exn "IndexError")
  | some s1 =>
    match pyFloat s1 with
    | none => .error (.exn "ValueError")
    | some en =>
      match elems.get? 2 with
      | none => .error (.exn "IndexError")
      | some s2 =>
        match pyFloat s2 with
        | none => .error (.exn "ValueError")
        | some w =>
          match elems.get? 3 with
          | none => .error (.exn "IndexError")
          | some k => .ok (k, ⟨en, w⟩)

/-- The level loop of LAMDA._get_energy_levels (db.py lines 93-100): read
n lines and insert each parsed row into the ordered mapping. -/
def levelsLoop : ℕ → List String → LevelsOD → Except PErr (List String × LevelsOD)
  | 0, s, acc => .ok (s, acc)
  | n + 1, s, acc =>
    let r := readLine s
    match getLevelLine r.1 with
    | .error e => .error e
    | .ok kv => levelsLoop n r.2 (odInsert acc kv.1 kv.2)

/-- LAMDA._get_energy_levels (db.py lines 86-102): skip to the ENERGY LEVELS
marker, read the level count, skip to the !LEVEL header, then read that many
level rows.  Returns the rest of the stream together with the mapping. -/
def getEnergyLevels (s : List String) : Except PErr (List String × LevelsOD) :=
  match skipLines isLvlMarker s with
  | .error e => .error e
  | .ok s1 =>
    let r := readLine s1
    match pyInt r.1 with
    | none => .error (.exn "ValueError")
    | some n =>
      match skipLines isLvlHeader r.2 with
      | .error e => .error e
      | .ok s3 => levelsLoop n.toNat s3 []

/-- One transition row (db.py lines 113-121): fields 1 and 2 are 1-based
indices resolved through the ordered level identifiers (levels[int(field)-1]),
fields 3, 4, 5 are the Einstein A coefficient, rest frequency and upper-level
energy, in source evaluation order. -/
def getTransLine (levels : List String) (line : String) :
    Except PErr ((String × String) × TransEntry) :=
  let elems := splitWS line
  match elems.get? 1 with
  | none => .error (.exn "IndexError")
  | some s1 =>
    match pyInt s1 with
    | none => .error (.exn "ValueError")
    | some i =>
      match pyListGet levels (i - 1) with
      | none => .error (.exn "IndexError")
      | some upper =>
        match elems.get? 2 with
        | none => .error (.exn "IndexError")
        | some s2 =>
          match pyInt s2 with
          | none => .error (.exn "ValueError")
          | some j =>
            match pyListGet levels (j - 1) with
            | none => .error (.exn "IndexError")
            | some lower =>
              match elems.get? 3 with
              | none => .error (.exn "IndexError")
              | some s3 =>
                match pyFloat s3 with
                | none => .error (.exn "ValueError")
                | some A =>
                  match elems.get? 4 with
                  | none => .error (.exn "IndexError")
                  | some s4 =>
                    match pyFloat s4 with
                    | none => .error (.exn "ValueError")
                    | some fr =>
                      match elems.get? 5 with
                      | none => .error (.exn "IndexError")
                      | some s5 =>
                        match pyFloat s5 with
                        | none => .error (.exn "ValueError")
                        | some Eu => .ok ((upper, lower), ⟨A, fr, Eu⟩)

/-- The transition loop of LAMDA._get_transitions (db.py lines 112-122). -/
def transLoop (levels : List String) :
    ℕ → List String → TransOD → Except PErr (List String × TransOD)
  | 0, s, acc => .ok (s, acc)
  | n + 1, s, acc =>
    let r := readLine s
    match getTransLine levels r.1 with
    | .error e => .error e
    | .ok kv => transLoop levels n r.2 (odInsert acc kv.1 kv.2)

/-- LAMDA._get_transitions (db.py lines 104-124): the ordered level identifiers
are taken first, then skip to the RADIATIVE TRANSITIONS marker, read the
count, skip to the !TRANS header, and read that many transition rows. -/
def getTransitions (levels : List String) (s : List String) : Except PErr TransOD :=
  match skipLines isTransMarker s with
  | .error e => .error e
  | .ok s1 =>
    let r := readLine s1
    match pyInt r.1 with
    | none => .error (.exn "ValueError")
    | some m =>
      match skipLines isTransHeader r.2 with
      | .error e => .error e
      | .ok s3 =>
        match transLoop levels m.toNat s3 [] with
        | .error e => .error e
        | .ok p => .ok p.2

/-- The parsed in-memory database. -/
structure MolDB where
  energy_levels : LevelsOD
  transitions : TransOD
  deriving DecidableEq

/-- LAMDA.__init__ parsing phase (db.py lines 58-60): energy levels first, then
transitions from the same stream position, with the ordered level identifiers
used to resolve transition indices. -/
def lamdaParse (s : List String) : Except PErr MolDB :=
  match getEnergyLevels s with
  | .error e => .error e
  | .ok p =>
    match getTransitions (p.2.map Prod.fst) p.1 with
    | .error e => .error e
    | .ok tr => .ok ⟨p.2, tr⟩

/- ### Names defined by the Python classes and modules

Python resolves attribute and global-name references at run time, so the sets
of names each class and module defines are part of the program semantics.
The lists below are transcribed from the class bodies and module headers. -/

/-- Attribute names a DataBase instance has (db.py lines 25-41): the methods of
class DataBase and the instance attribute set in its constructor. -/
def dataBaseAttrs : List String :=
  ["__init__", "_skip_lines", "__repr__", "molname"]

/-- Attribute names a LAMDA instance has (db.py lines 44-124): the class
attribute available, the methods Z, dZdT, _get_energy_levels and
_get_transitions, the instance attributes energy_levels and transitions, plus
everything inherited from DataBase.  Note that neither Z_diff nor __call__ is
among them. -/
def lamdaAttrs : List String :=
  ["available", "Z", "dZdT", "_get_energy_levels", "_get_transitions",
   "energy_levels", "transitions"] ++ dataBaseAttrs

/-- Top-level names bound in the diagram module (diagram.py lines 1-17):
the export list, the imports and the module constants c, h, k.  The bare name
pi used on line 88 is not among them. -/
def diagramGlobals : List String :=
  ["__all__", "OrderedDict", "dpop", "np", "plt", "u", "constants",
   "c", "h", "k", "PopDiagram", "_PopDiagram"]

/-- The keys of one transitions value (db.py line 121). -/
def transitionRecordKeys : List String := ["A_ul", "f_rest", "E_u"]

/-- The export list of the diagram module (diagram.py line 2). -/
def diagramModuleAll : List String := ["PopDiagram"]

/-- Attribute names defined by the public class PopDiagram (diagram.py lines
20-41): its methods and the db attribute set in its constructor. -/
def popDiagramClassAttrs : List String :=
  ["__init__", "calc", "plot", "__setitem__", "__repr__", "db"]

/-- Public method names inherited by PopDiagram from OrderedDict (the Python
standard library base class it subclasses); none of them is called input. -/
def orderedDictMethods : List String :=
  ["clear", "copy", "fromkeys", "get", "items", "keys", "pop", "popitem",
   "setdefault", "update", "values", "move_to_end"]

/-- Attribute names defined by the module-private class (diagram.py lines
44-189): its methods and the attributes set by its constructor and clear. -/
def privatePopDiagramAttrs : List String :=
  ["__init__", "input", "clear", "calc", "plot", "__repr__", "__str__",
   "db", "x", "y", "y_error", "x_label"]

/-- diagram.py line 95: the label stored with each data point is the molecule
name followed by the transition pair in parentheses, with a hyphen between
the two level identifiers. -/
def inputLabel (molname upper lower : String) : String :=
  molname ++ "(" ++ upper ++ "-" ++ lower ++ ")"

/-- State of a public PopDiagram instance: the database it references and the
key/value items it stores as an OrderedDict subclass. -/
structure PDState where
  dbName : String
  items : List (String × ℤ)
  deriving DecidableEq

/-- PopDiagram.calc (diagram.py lines 30-31): the body is pass, so the call
returns None (modelled as none) and the instance state is untouched. -/
def popDiagramCalc (st : PDState) : PDState × Option ℤ := (st, none)

end Dpop

/- ### The fit computation over the reals (diagram.py) -/

noncomputable section

namespace Dpop

/-- The per-point weights of _PopDiagram.calc, line 114: elementwise
y_error ** (-2). -/
def weights (ye : List ℝ) : List ℝ := ye.map (fun e => e ^ (-2 : ℤ))

/-- Line 115: the sum of the weights. -/
def sumW (ye : List ℝ) : ℝ := (weights ye).sum

/-- Line 116: the sum of the elementwise product w * x. -/
def sumWX (x ye : List ℝ) : ℝ :=
  (List.zipWith (fun a t => a * t) (weights ye) x).sum

/-- Line 117: the sum of the elementwise product w * y. -/
def sumWY (y ye : List ℝ) : ℝ :=
  (List.zipWith (fun a t => a * t) (weights ye) y).sum

/-- Line 118: the sum of the elementwise product w * x ** 2. -/
def sumWXX (x ye : List ℝ) : ℝ :=
  (List.zipWith (fun a t => a * t) (weights ye) (x.map (fun t => t ^ 2))).sum

/-- Line 119: the sum of the elementwise product (w * x) * y. -/
def sumWXY (x y ye : List ℝ) : ℝ :=
  (List.zipWith (fun a t => a * t)
    (List.zipWith (fun a t => a * t) (weights ye) x) y).sum

/-- Line 120: the determinant of the weighted normal equations. -/
def Dval (x ye : List ℝ) : ℝ := sumW ye * sumWXX x ye - (sumWX x ye) ^ 2

/-- The numbers _PopDiagram.calc stores before its N_tot step. -/
structure FitVals where
  a : ℝ
  b : ℝ
  a_error : ℝ
  b_error : ℝ
  T_ex : ℝ
  T_ex_error : ℝ

/-- _PopDiagram.calc, lines 114-133, exactly as the source writes them:
a and b from the weighted sums divided by D, their errors as square roots,
then T_ex = -b ** (-1) / log(10) and T_ex_error = b_error * b ** (-2) / log(10)
(Kelvin attached afterwards). -/
def calcFit (x y ye : List ℝ) : FitVals :=
  let D := Dval x ye
  let a := (sumWY y ye * sumWXX x ye - sumWXY x y ye * sumWX x ye) / D
  let b := (sumW ye * sumWXY x y ye - sumWX x ye * sumWY y ye) / D
  let a_error := Real.sqrt (sumWXX x ye / D)
  let b_error := Real.sqrt (sumW ye / D)
  let T_ex := -b⁻¹ / Real.log 10
  let T_ex_error := b_error * b ^ (-2 : ℤ) / Real.log 10
  ⟨a, b, a_error, b_error, T_ex, T_ex_error⟩

/-- The same fit exactly as the specification words it (claim C1): weights
w = y_error ** -2, the five sums S, Sx, Sy, Sxx, Sxy, D = S * Sxx - Sx ** 2,
a = (Sy Sxx - Sxy Sx) / D, b = (S Sxy - Sx Sy) / D, a_error = sqrt(Sxx / D),
b_error = sqrt(S / D), T_ex = -1 / (b ln 10) and
T_ex_error = b_error / (b ** 2 ln 10).  This definition follows the
specification text and is compared with calcFit, which follows the source. -/
def specFit (x y ye : List ℝ) : FitVals :=
  let w := ye.map (fun e => (e⁻¹) ^ 2)
  let S := w.sum
  let Sx := (List.zipWith (fun a t => a * t) w x).sum
  let Sy := (List.zipWith (fun a t => a * t) w y).sum
  let Sxx := (List.zipWith (fun a t => a * t) w (x.map (fun t => t ^ 2))).sum
  let Sxy := (List.zipWith (fun a t => a * t)
    (List.zipWith (fun a t => a * t) w x) y).sum
  let D := S * Sxx - Sx ^ 2
  let a := (Sy * Sxx - Sxy * Sx) / D
  let b := (S * Sxy - Sx * Sy) / D
  let a_error := Real.sqrt (Sxx / D)
  let b_error := Real.sqrt (S / D)
  let T_ex := -1 / (b * Real.log 10)
  let T_ex_error := b_error / (b ^ 2 * Real.log 10)
  ⟨a, b, a_error, b_error, T_ex, T_ex_error⟩

/- ### Partition function (db.py lines 62-72) -/

/-- Planck constant in SI units (joule seconds), as provided by astropy. -/
def planckH : ℝ := 662607015 / 10 ^ 42

/-- Speed of light in SI units (meters per second), as provided by astropy. -/
def lightC : ℝ := 299792458

/-- Boltzmann constant in SI units (joules per kelvin), as provided by
astropy. -/
def boltzK : ℝ := 1380649 / 10 ^ 29

/-- One term of the partition sum (db.py lines 67-70): weight times
exp(-E / (k T)) with E = h c energy; the parsed energy is in inverse
centimeters and the factor 100 converts it to inverse meters, as the unit
arithmetic of the source does, so that E is in joules. -/
def Zterm (T : ℝ) (v : LevelEntry) : ℝ :=
  (v.weight : ℝ) *
    Real.exp (-(planckH * lightC * ((v.energy : ℝ) * 100)) / (boltzK * T))

/-- LAMDA.Z (db.py lines 62-72): the partition function, accumulated over the
energy levels in insertion order starting from 0. -/
def Zfun (db : LevelsOD) (T : ℝ) : ℝ :=
  db.foldl (fun acc p => acc + Zterm T p.2) 0

/- ### The module-private diagram class as a state machine (diagram.py) -/

/-- The mutable attributes of a module-private diagram instance: the four
order-parallel data arrays set by clear/input and the fit attributes, which
clear initialises to None (modelled as none). -/
structure DiagState where
  x : List ℝ
  y : List ℝ
  y_error : List ℝ
  x_label : List String
  a? : Option ℝ
  a_error? : Option ℝ
  b? : Option ℝ
  b_error? : Option ℝ
  T_ex? : Option ℝ
  T_ex_error? : Option ℝ
  N_tot? : Option ℝ
  N_tot_error? : Option ℝ

/-- _PopDiagram.clear (diagram.py lines 101-110): empty data arrays, all fit
attributes None. -/
def clearPy : DiagState :=
  ⟨[], [], [], [], none, none, none, none, none, none, none, none⟩

/-- _PopDiagram.input (diagram.py lines 61-99).  After attaching units to the
two numbers, line 87 evaluates the call expression on the database object
itself; calling an instance requires its class to define __call__, and if it
does not Python raises TypeError there, before any further line of input
runs.  The remaining lines 88-99 are therefore modelled by an arbitrary
continuation rest, invoked only when __call__ exists.  The result pairs the
state after the call with the exception name it raises, if any. -/
def inputPy (dbAttrs : List String)
    (rest : DiagState → String → String → ℝ → ℝ → DiagState × Option String)
    (st : DiagState) (upper lower : String) (Ib IbErr : ℝ) :
    DiagState × Option String :=
  if "__call__" ∈ dbAttrs then rest st upper lower Ib IbErr
  else (st, some "TypeError")

/-- _PopDiagram.calc (diagram.py lines 112-148).  Lines 114-133 compute the
fit values and store them on the instance; line 136 then looks up the
attribute Z_diff on the database object, and if the database class does not
define it Python raises AttributeError there, with the fit attributes already
stored and the N_tot attributes untouched.  Lines 136-148 for a database that
does define Z_diff are modelled by an arbitrary continuation restN. -/
def calcPy (dbAttrs : List String)
    (restN : DiagState → DiagState × Option String) (st : DiagState) :
    DiagState × Option String :=
  let f := calcFit st.x st.y st.y_error
  let st1 : DiagState :=
    { st with
      a? := some f.a, a_error? := some f.a_error,
      b? := some f.b, b_error? := some f.b_error,
      T_ex? := some f.T_ex, T_ex_error? := some f.T_ex_error }
  if "Z_diff" ∈ dbAttrs then restN st1 else (st1, some "AttributeError")

/- ### Concrete data used by witnesses and counterexamples -/

/-- First level row of the witness stream. -/
def lvlA : LevelEntry := ⟨0, 1⟩

/-- Second level row of the witness stream. -/
def lvlB : LevelEntry := ⟨5 / 2, 3⟩

/-- The parsed level mapping of the witness stream. -/
def rowsW : LevelsOD := [("a", lvlA), ("b", lvlB)]

/-- The parsed transition mapping of the witness stream. -/
def trowsW : TransOD := [(("b", "a"), ⟨1 / 2, 115, 11 / 2⟩)]

/-- A small well-formed LAMDA stream: two levels, one transition. -/
def streamW : List String :=
  ["!MOLECULE", "!NUMBER OF ENERGY LEVELS", "2",
   "!LEVEL + ENERGIES + WEIGHT + J",
   "1 0.0 1.0 a", "2 2.5 3.0 b",
   "!NUMBER OF RADIATIVE TRANSITIONS", "1",
   "!TRANS + UP + LOW + A + FREQ + EU",
   "1 2 1 0.5 115.0 5.5"]

/-- A stream with a well-formed levels block and no RADIATIVE TRANSITIONS
marker anywhere after it. -/
def streamNoTrans : List String :=
  ["!NUMBER OF ENERGY LEVELS", "2", "!LEVEL", "1 0.0 1.0 a", "2 2.5 3.0 b"]

/-- A well-formed stream declaring a single level, the ground state at energy
zero, and no transitions. -/
def streamOne : List String :=
  ["!NUMBER OF ENERGY LEVELS", "1", "!LEVEL", "1 0.0 1.0 a",
   "!NUMBER OF RADIATIVE TRANSITIONS", "0", "!TRANS"]

/-- The level mapping streamOne parses to: one level, energy 0, weight 1. -/
def oneLevelDB : LevelsOD := [("a", lvlA)]

/-- A two-level database with positive weights, nonnegative energies and one
strictly positive energy. -/
def twoLevelDB : LevelsOD := [("a", ⟨0, 1⟩), ("b", ⟨1, 1⟩)]

/-- Witness abscissas for the fit theorem. -/
def xsW : List ℝ := [0, 1]

/-- Witness ordinates for the fit theorem. -/
def ysW : List ℝ := [1, 3]

/-- Witness ordinate errors for the fit theorem. -/
def yeW : List ℝ := [1, 1]

/-- A trivial continuation for the unreachable branch of inputPy. -/
def rest0 : DiagState → String → String → ℝ → ℝ → DiagState × Option String :=
  fun s _ _ _ _ => (s, none)

/-- A trivial continuation for the unreachable branch of calcPy. -/
def restN0 : DiagState → DiagState × Option String := fun s => (s, none)

/-- A diagram state as it stands right after a calc call stored fit values:
data points present and every fit attribute populated. -/
def stFit : DiagState :=
  ⟨[0, 1], [1, 3], [1, 1], ["co(2-1)", "co(3-2)"],
   some 1, some 1, some 2, some 1, some 5, some 1, some 3, some 1⟩

end Dpop

end

namespace Dpop

/- ### Helper lemmas -/

/-- The LAMDA database class defines no attribute named Z_diff. -/
theorem zdiff_not_in_lamda : "Z_diff" ∉ lamdaAttrs := by decide

/-- The LAMDA database class defines no __call__, so its instances are not
callable. -/
theorem call_not_in_lamda : "__call__" ∉ lamdaAttrs := by decide

/-- Reduction of inputPy on a LAMDA-backed diagram: the database object is not
callable, so the call raises TypeError and the state is unchanged. -/
theorem inputPy_lamda (rest : DiagState → String → String → ℝ → ℝ →
    DiagState × Option String) (st : DiagState) (upper lower : String)
    (Ib IbErr : ℝ) :
    inputPy lamdaAttrs rest st upper lower Ib IbErr = (st, some "TypeError") := by
  unfold inputPy
  rw [if_neg call_not_in_lamda]

/-- Reduction of calcPy on a LAMDA-backed diagram: the Z_diff lookup fails, so
the call stores the fit values and raises AttributeError. -/
theorem calcPy_lamda (restN : DiagState → DiagState × Option String)
    (st : DiagState) :
    calcPy lamdaAttrs restN st =
      ({ st with
          a? := some (calcFit st.x st.y st.y_error).a,
          a_error? := some (calcFit st.x st.y st.y_error).a_error,
          b? := some (calcFit st.x st.y st.y_error).b,
          b_error? := some (calcFit st.x st.y st.y_error).b_error,
          T_ex? := some (calcFit st.x st.y st.y_error).T_ex,
          T_ex_error? := some (calcFit st.x st.y st.y_error).T_ex_error },
        some "AttributeError") := by
  unfold calcPy
  rw [if_neg zdiff_not_in_lamda]

/-- The two spellings of the weights agree: y_error ** (-2) elementwise equals
the inverse square the specification writes. -/
theorem weights_eq_spec (ye : List ℝ) :
    weights ye = ye.map (fun e => (e⁻¹) ^ 2) := by
  unfold weights
  refine List.map_congr_left fun e _ => ?_
  rw [zpow_neg, inv_pow]
  simp [zpow_two, pow_two]

/-- Source form of T_ex equals the specification form, for every slope
including zero. -/
theorem tex_forms_agree (b L : ℝ) : -b⁻¹ / L = -1 / (b * L) := by
  rw [inv_eq_one_div, neg_div, div_div, neg_div]

/-- Source form of T_ex_error equals the specification form, for every slope
including zero. -/
theorem tex_error_forms_agree (be b L : ℝ) :
    be * b ^ (-2 : ℤ) / L = be / (b ^ 2 * L) := by
  rw [zpow_neg, ← div_eq_mul_inv, div_div]
  simp [zpow_two, pow_two]

/-- The closed-form a and b solve the weighted normal equations whenever the
determinant does not vanish. -/
theorem normal_equations (S Sx Sy Sxx Sxy : ℝ) (hD : S * Sxx - Sx ^ 2 ≠ 0) :
    S * ((Sy * Sxx - Sxy * Sx) / (S * Sxx - Sx ^ 2)) +
      Sx * ((S * Sxy - Sx * Sy) / (S * Sxx - Sx ^ 2)) = Sy ∧
    Sx * ((Sy * Sxx - Sxy * Sx) / (S * Sxx - Sx ^ 2)) +
      Sxx * ((S * Sxy - Sx * Sy) / (S * Sxx - Sx ^ 2)) = Sxy := by
  constructor
  · field_simp
    ring
  · field_simp
    ring

/- ### Claim C1 -/

/-- C1: for a dataset with at least 2 points and nonzero D, calc computes the
weighted least-squares fit with weights w = y_error ** -2 and the sums S, Sx,
Sy, Sxx, Sxy, via a = (Sy Sxx - Sxy Sx)/D, b = (S Sxy - Sx Sy)/D,
a_error = sqrt(Sxx/D), b_error = sqrt(S/D), T_ex = -1/(b ln 10) and
T_ex_error = b_error/(b^2 ln 10): the source computation (calcFit) equals the
fit exactly as the specification words it (specFit), and the computed a and b
solve the weighted normal equations, so they are the weighted least-squares
coefficients. -/
theorem C1_calc_weighted_fit (x y ye : List ℝ) (_hn : 2 ≤ x.length)
    (hD : Dval x ye ≠ 0) :
    calcFit x y ye = specFit x y ye ∧
    sumW ye * (calcFit x y ye).a + sumWX x ye * (calcFit x y ye).b =
      sumWY y ye ∧
    sumWX x ye * (calcFit x y ye).a + sumWXX x ye * (calcFit x y ye).b =
      sumWXY x y ye := by
  have hD' : sumW ye * sumWXX x ye - (sumWX x ye) ^ 2 ≠ 0 := hD
  refine ⟨?_, normal_equations _ _ _ _ _ hD' |>.1,
    normal_equations _ _ _ _ _ hD' |>.2⟩
  simp only [calcFit, specFit, Dval]
  rw [← weights_eq_spec]
  congr 1
  · exact tex_forms_agree _ _
  · exact tex_error_forms_agree _ _ _

/-- C1 witness: a concrete two-point dataset with unit errors satisfies the
hypotheses, and the theorem yields the fit equalities for it. -/
theorem C1_calc_weighted_fit_witness :
    (2 ≤ xsW.length ∧ Dval xsW yeW ≠ 0) ∧
    calcFit xsW ysW yeW = specFit xsW ysW yeW ∧
    sumW yeW * (calcFit xsW ysW yeW).a + sumWX xsW yeW * (calcFit xsW ysW yeW).b =
      sumWY ysW yeW := by
  have hn : 2 ≤ xsW.length := by norm_num [xsW]
  have hD : Dval xsW yeW ≠ 0 := by
    norm_num [Dval, sumW, sumWX, sumWXX, weights, xsW, yeW]
  have h := C1_calc_weighted_fit xsW ysW yeW hn hD
  exact ⟨⟨hn, hD⟩, h.1, h.2.1⟩

/- ### Claim C2 -/

/-- C2: the claim states that calc() derives N_tot and N_tot_error from the
database partition function Z and its analytic derivative dZdT evaluated at
the fitted T_ex.  The database (db.py) does define Z and dZdT, but calc
(diagram.py line 136) looks up the attribute Z_diff, which no database class
defines; the call therefore raises AttributeError for every state and every
dataset, and the N_tot attributes are never assigned.  The claim describes the
evident intent; the code is a slip (a stale method name). -/
theorem C2_ntot_missing_z_diff :
    "Z_diff" ∉ lamdaAttrs ∧ "dZdT" ∈ lamdaAttrs ∧
    ∀ (restN : DiagState → DiagState × Option String) (st : DiagState),
      (calcPy lamdaAttrs restN st).1.N_tot? = st.N_tot? ∧
      (calcPy lamdaAttrs restN st).1.N_tot_error? = st.N_tot_error? ∧
      (calcPy lamdaAttrs restN st).2 = some "AttributeError" := by
  refine ⟨by decide, by decide, fun restN st => ?_⟩
  rw [calcPy_lamda]
  exact ⟨rfl, rfl, rfl⟩

/- ### Claim C3 -/

/-- C3: the claim states that input() computes N_u, N_u_error and the data
point, appends it and returns nothing, with label upper-lower.  In the code,
line 87 calls the database object, whose class defines no __call__ (TypeError
on every call); even past that, line 88 reads the unbound global name pi
(NameError) and line 93 reads the key g_u, which transition records do not
carry (KeyError); moreover the label the source builds is
molname(upper-lower), not upper-lower as the claim words it. -/
theorem C3_input_code_defects :
    "__call__" ∉ dataBaseAttrs ∧ "__call__" ∉ lamdaAttrs ∧
    "pi" ∉ diagramGlobals ∧
    "g_u" ∉ transitionRecordKeys ∧
    ("A_ul" ∈ transitionRecordKeys ∧ "f_rest" ∈ transitionRecordKeys ∧
      "E_u" ∈ transitionRecordKeys) ∧
    inputLabel "co" "3" "2" = "co(3-2)" ∧
    inputLabel "co" "3" "2" ≠ "3-2" := by
  refine ⟨by decide, by decide, by decide, by decide, ⟨by decide, by decide, by decide⟩, ?_, ?_⟩ <;> decide

/- ### Parser helper lemmas -/

/-- skipLines consumes everything up to and including the first matching line
and returns the lines after it. -/
theorem skipLines_found (p : String → Bool) (pre : List String) (m : String)
    (rest : List String) (hpre : ∀ l ∈ pre, p l = false) (hm : p m = true) :
    skipLines p (pre ++ m :: rest) = .ok rest := by
  induction pre with
  | nil => simp [skipLines, hm]
  | cons a tl ih =>
      have ha : p a = false := hpre a (List.mem_cons_self a tl)
      simp only [List.cons_append, skipLines, ha, Bool.false_eq_true, if_false]
      exact ih fun l hl => hpre l (List.mem_cons_of_mem a hl)

/-- skipLines on a stream with no matching line models the non-terminating
Python loop. -/
theorem skipLines_hang (p : String → Bool) (s : List String)
    (h : ∀ l ∈ s, p l = false) : skipLines p s = .error .hang := by
  induction s with
  | nil => rfl
  | cons a tl ih =>
      have ha : p a = false := h a (List.mem_cons_self a tl)
      simp only [skipLines, ha, Bool.false_eq_true, if_false]
      exact ih fun l hl => h l (List.mem_cons_of_mem a hl)

/-- Inserting a fresh key into the ordered mapping appends it. -/
theorem odInsert_new {κ β : Type} [DecidableEq κ] (m : List (κ × β)) (k : κ)
    (v : β) (h : k ∉ m.map Prod.fst) : odInsert m k v = m ++ [(k, v)] := by
  unfold odInsert
  rw [if_neg h]

/-- The level loop consumes exactly its count of lines and appends the parsed
rows to the accumulator, provided every row parses and the keys stay
distinct. -/
theorem levelsLoop_ok (lvls : List String) (rows : LevelsOD)
    (rest : List String) (acc : LevelsOD)
    (h : List.Forall₂ (fun l r => getLevelLine l = Except.ok r) lvls rows)
    (hnd : ((acc ++ rows).map Prod.fst).Nodup) :
    levelsLoop lvls.length (lvls ++ rest) acc = .ok (rest, acc ++ rows) := by
  induction h generalizing acc with
  | nil => simp [levelsLoop]
  | @cons l r ls rs hl htl ih =>
      have hk : r.1 ∉ List.map Prod.fst acc := by
        intro hmem
        have h2 := hnd
        rw [List.map_append, List.nodup_append] at h2
        exact h2.2.2 hmem (by simp)
      have hnd' : (((acc ++ [r]) ++ rs).map Prod.fst).Nodup := by
        have : (acc ++ [r]) ++ rs = acc ++ (r :: rs) := by simp
        rw [this]
        exact hnd
      simp only [List.length_cons, List.cons_append, levelsLoop, readLine, hl]
      rw [odInsert_new acc r.1 r.2 hk,
        show ((r.1, r.2) : String × LevelEntry) = r from rfl, ih (acc ++ [r]) hnd']
      simp

/-- The transition loop consumes exactly its count of lines and appends the
parsed rows to the accumulator, provided every row parses and the key pairs
stay distinct. -/
theorem transLoop_ok (levels : List String) (trs : List String)
    (trows : TransOD) (rest : List String) (acc : TransOD)
    (h : List.Forall₂ (fun l r => getTransLine levels l = Except.ok r) trs trows)
    (hnd : ((acc ++ trows).map Prod.fst).Nodup) :
    transLoop levels trs.length (trs ++ rest) acc = .ok (rest, acc ++ trows) := by
  induction h generalizing acc with
  | nil => simp [transLoop]
  | @cons l r ls rs hl htl ih =>
      have hk : r.1 ∉ List.map Prod.fst acc := by
        intro hmem
        have h2 := hnd
        rw [List.map_append, List.nodup_append] at h2
        exact h2.2.2 hmem (by simp)
      have hnd' : (((acc ++ [r]) ++ rs).map Prod.fst).Nodup := by
        have : (acc ++ [r]) ++ rs = acc ++ (r :: rs) := by simp
        rw [this]
        exact hnd
      simp only [List.length_cons, List.cons_append, transLoop, readLine, hl]
      rw [odInsert_new acc r.1 r.2 hk,
        show ((r.1, r.2) : (String × String) × TransEntry) = r from rfl,
        ih (acc ++ [r]) hnd']
      simp

/-- Full reduction of the energy-levels pass on a well-formed stream. -/
theorem getEnergyLevels_eq (pre1 : List String) (m1 cnt1 : String)
    (pre2 : List String) (hd1 : String) (lvls : List String) (rows : LevelsOD)
    (rest : List String) (N : ℕ)
    (hpre1 : ∀ l ∈ pre1, isLvlMarker l = false) (hm1 : isLvlMarker m1 = true)
    (hcnt1 : pyInt cnt1 = some (N : ℤ)) (hN : lvls.length = N)
    (hpre2 : ∀ l ∈ pre2, isLvlHeader l = false) (hh1 : isLvlHeader hd1 = true)
    (hrows : List.Forall₂ (fun l r => getLevelLine l = Except.ok r) lvls rows)
    (hnd : (rows.map Prod.fst).Nodup) :
    getEnergyLevels (pre1 ++ m1 :: cnt1 :: (pre2 ++ hd1 :: (lvls ++ rest))) =
      .ok (rest, rows) := by
  simp only [getEnergyLevels, skipLines_found _ _ _ _ hpre1 hm1, readLine,
    hcnt1, skipLines_found _ _ _ _ hpre2 hh1, Int.toNat_natCast]
  rw [← hN]
  have h := levelsLoop_ok lvls rows rest [] hrows (by simpa using hnd)
  simpa using h

/-- Full reduction of the transitions pass on a well-formed stream. -/
theorem getTransitions_eq (levels : List String) (pre3 : List String)
    (m2 cnt2 : String) (pre4 : List String) (hd2 : String) (trs : List String)
    (trows : TransOD) (rest : List String) (M : ℕ)
    (hpre3 : ∀ l ∈ pre3, isTransMarker l = false) (hm2 : isTransMarker m2 = true)
    (hcnt2 : pyInt cnt2 = some (M : ℤ)) (hM : trs.length = M)
    (hpre4 : ∀ l ∈ pre4, isTransHeader l = false) (hh2 : isTransHeader hd2 = true)
    (htrows : List.Forall₂ (fun l r => getTransLine levels l = Except.ok r) trs
      trows)
    (hnd : (trows.map Prod.fst).Nodup) :
    getTransitions levels (pre3 ++ m2 :: cnt2 :: (pre4 ++ hd2 :: (trs ++ rest))) =
      .ok trows := by
  simp only [getTransitions, skipLines_found _ _ _ _ hpre3 hm2, readLine,
    hcnt2, skipLines_found _ _ _ _ hpre4 hh2, Int.toNat_natCast]
  rw [← hM]
  have h := transLoop_ok levels trs trows rest [] htrows (by simpa using hnd)
  rw [h]
  simp

/- ### Claim C4 -/

/-- C4: a well-formed stream — arbitrary junk, the ENERGY LEVELS marker, a
count line parsing to N, junk, a !LEVEL header, N parsable level rows with
distinct identifiers, then the RADIATIVE TRANSITIONS marker, a count line
parsing to M, junk, a !TRANS header and M parsable transition rows with
distinct index pairs — parses to exactly the N level rows in file order and
the M transition rows; a level row stores field 1 as the energy, field 2 as
the weight and field 3 as the identifier of the whitespace-split line, and a
transition row resolves fields 1 and 2 as 1-based positional indices into the
ordered level identifiers (list index int(field)-1), with fields 3, 4, 5 as
A_ul, f_rest and E_u. -/
theorem C4_parse_round_trip (pre1 : List String) (m1 cnt1 : String)
    (pre2 : List String) (hd1 : String) (lvls : List String) (rows : LevelsOD)
    (pre3 : List String) (m2 cnt2 : String) (pre4 : List String) (hd2 : String)
    (trs : List String) (trows : TransOD) (rest : List String) (N M : ℕ)
    (hpre1 : ∀ l ∈ pre1, isLvlMarker l = false) (hm1 : isLvlMarker m1 = true)
    (hcnt1 : pyInt cnt1 = some (N : ℤ)) (hN : lvls.length = N)
    (hpre2 : ∀ l ∈ pre2, isLvlHeader l = false) (hh1 : isLvlHeader hd1 = true)
    (hrows : List.Forall₂ (fun l r => getLevelLine l = Except.ok r) lvls rows)
    (hnd : (rows.map Prod.fst).Nodup)
    (hpre3 : ∀ l ∈ pre3, isTransMarker l = false) (hm2 : isTransMarker m2 = true)
    (hcnt2 : pyInt cnt2 = some (M : ℤ)) (hM : trs.length = M)
    (hpre4 : ∀ l ∈ pre4, isTransHeader l = false) (hh2 : isTransHeader hd2 = true)
    (htrows : List.Forall₂
      (fun l r => getTransLine (rows.map Prod.fst) l = Except.ok r) trs trows)
    (hndt : (trows.map Prod.fst).Nodup) :
    lamdaParse (pre1 ++ m1 :: cnt1 :: (pre2 ++ hd1 ::
        (lvls ++ (pre3 ++ m2 :: cnt2 :: (pre4 ++ hd2 :: (trs ++ rest)))))) =
      .ok ⟨rows, trows⟩ ∧
    rows.length = N ∧ trows.length = M ∧
    (∀ (line s1v s2v s3v : String) (en w : ℚ),
      (splitWS line).get? 1 = some s1v → pyFloat s1v = some en →
      (splitWS line).get? 2 = some s2v → pyFloat s2v = some w →
      (splitWS line).get? 3 = some s3v →
      getLevelLine line = Except.ok (s3v, ⟨en, w⟩)) ∧
    (∀ (levels : List String) (line t1 t2 t3 t4 t5 uu ll : String) (i j : ℤ)
      (A fr Eu : ℚ),
      (splitWS line).get? 1 = some t1 → pyInt t1 = some i →
      pyListGet levels (i - 1) = some uu →
      (splitWS line).get? 2 = some t2 → pyInt t2 = some j →
      pyListGet levels (j - 1) = some ll →
      (splitWS line).get? 3 = some t3 → pyFloat t3 = some A →
      (splitWS line).get? 4 = some t4 → pyFloat t4 = some fr →
      (splitWS line).get? 5 = some t5 → pyFloat t5 = some Eu →
      getTransLine levels line = Except.ok ((uu, ll), ⟨A, fr, Eu⟩)) ∧
    (∀ (levels : List String) (i : ℤ), 1 ≤ i →
      pyListGet levels (i - 1) = levels.get? (i - 1).toNat) := by
  have hE := getEnergyLevels_eq pre1 m1 cnt1 pre2 hd1 lvls rows
    (pre3 ++ m2 :: cnt2 :: (pre4 ++ hd2 :: (trs ++ rest))) N
    hpre1 hm1 hcnt1 hN hpre2 hh1 hrows hnd
  have hT := getTransitions_eq (rows.map Prod.fst) pre3 m2 cnt2 pre4 hd2 trs
    trows rest M hpre3 hm2 hcnt2 hM hpre4 hh2 htrows hndt
  refine ⟨?_, ?_, ?_, ?_, ?_, ?_⟩
  · simp only [lamdaParse, hE, hT]
  · rw [← hrows.length_eq]
    exact hN
  · rw [← htrows.length_eq]
    exact hM
  · intro line s1v s2v s3v en w h1' h2' h3' h4' h5'
    simp only [getLevelLine, h1', h2', h3', h4', h5']
  · intro levels line t1 t2 t3 t4 t5 uu ll i j A fr Eu
    intro a1 a2 a3 a4 a5 a6 a7 a8 a9 a10 a11 a12
    simp only [getTransLine, a1, a2, a3, a4, a5, a6, a7, a8, a9, a10, a11, a12]
  · intro levels i hi
    unfold pyListGet
    rw [if_pos (by omega)]

/-- C4 witness: the concrete two-level one-transition stream satisfies every
hypothesis and parses to exactly its two level rows and one transition row. -/
theorem C4_parse_round_trip_witness :
    pyInt "2" = some ((2 : ℕ) : ℤ) ∧
    (rowsW.map Prod.fst).Nodup ∧
    lamdaParse streamW = .ok ⟨rowsW, trowsW⟩ ∧
    rowsW.length = 2 ∧ trowsW.length = 1 := by
  have hrows : List.Forall₂ (fun l r => getLevelLine l = Except.ok r)
      ["1 0.0 1.0 a", "2 2.5 3.0 b"] rowsW := by
    simp only [rowsW, lvlA, lvlB]
    refine List.Forall₂.cons ?_ (List.Forall₂.cons ?_ List.Forall₂.nil)
    · with_unfolding_all decide
    · with_unfolding_all decide
  have htrows : List.Forall₂
      (fun l r => getTransLine (rowsW.map Prod.fst) l = Except.ok r)
      ["1 2 1 0.5 115.0 5.5"] trowsW := by
    simp only [rowsW, lvlA, lvlB, trowsW, List.map_cons, List.map_nil]
    refine List.Forall₂.cons ?_ List.Forall₂.nil
    with_unfolding_all decide
  have h := C4_parse_round_trip ["!MOLECULE"] "!NUMBER OF ENERGY LEVELS" "2" []
    "!LEVEL + ENERGIES + WEIGHT + J" ["1 0.0 1.0 a", "2 2.5 3.0 b"] rowsW
    [] "!NUMBER OF RADIATIVE TRANSITIONS" "1" []
    "!TRANS + UP + LOW + A + FREQ + EU" ["1 2 1 0.5 115.0 5.5"] trowsW [] 2 1
    (by intro l hl; fin_cases hl; with_unfolding_all decide)
    (by with_unfolding_all decide)
    (by with_unfolding_all decide) rfl
    (by intro l hl; exact absurd hl (List.not_mem_nil l))
    (by with_unfolding_all decide) hrows
    (by with_unfolding_all decide)
    (by intro l hl; exact absurd hl (List.not_mem_nil l))
    (by with_unfolding_all decide)
    (by with_unfolding_all decide) rfl
    (by intro l hl; exact absurd hl (List.not_mem_nil l))
    (by with_unfolding_all decide) htrows
    (by with_unfolding_all decide)
  refine ⟨by with_unfolding_all decide, by with_unfolding_all decide, ?_, ?_, ?_⟩
  · have hs : streamW = ["!MOLECULE"] ++ "!NUMBER OF ENERGY LEVELS" :: "2" ::
        ([] ++ "!LEVEL + ENERGIES + WEIGHT + J" ::
          (["1 0.0 1.0 a", "2 2.5 3.0 b"] ++
            ([] ++ "!NUMBER OF RADIATIVE TRANSITIONS" :: "1" ::
              ([] ++ "!TRANS + UP + LOW + A + FREQ + EU" ::
                (["1 2 1 0.5 115.0 5.5"] ++ []))))) := by
      simp [streamW]
    rw [hs]
    exact h.1
  · exact h.2.1
  · exact h.2.2.1

/- ### Claim C5 -/

/-- C5 counterexample: with zero accumulated points (fewer than 2), calc on a
LAMDA-backed diagram does not fail with a FitError; it raises AttributeError
(from the missing Z_diff), having performed no data validation at all. -/
theorem C5_no_fit_error_counterexample :
    clearPy.x.length = 0 ∧
    (calcPy lamdaAttrs restN0 clearPy).2 = some "AttributeError" ∧
    (calcPy lamdaAttrs restN0 clearPy).2 ≠ some "FitError" := by
  refine ⟨rfl, ?_, ?_⟩
  · rw [calcPy_lamda]
  · rw [calcPy_lamda]
    simp

/-- C5 amended: calc() performs no validation of the accumulated dataset — no
check for fewer than 2 points, for a vanishing D or for non-positive
y_error — and raises no FitError on any dataset; on a LAMDA-backed diagram
every calc() call fails with AttributeError at the Z_diff lookup of the N_tot
step, so no valid fit result is produced, whatever the data. -/
theorem C5_calc_never_raises_fit_error
    (restN : DiagState → DiagState × Option String) (st : DiagState) :
    (calcPy lamdaAttrs restN st).2 = some "AttributeError" ∧
    (calcPy lamdaAttrs restN st).2 ≠ some "FitError" := by
  rw [calcPy_lamda]
  exact ⟨rfl, by simp⟩

/- ### Claim C6 -/

/-- C6 counterexample: a state holding a stored fit (every fit attribute
populated) is left with exactly the same stored fit by an input() call — the
call raises TypeError and invalidates nothing, so the stale values remain
readable as if valid. -/
theorem C6_stale_fit_counterexample :
    (inputPy lamdaAttrs rest0 stFit "3" "2" 10 1).1.a? = some 1 ∧
    (inputPy lamdaAttrs rest0 stFit "3" "2" 10 1).1.b? = some 2 ∧
    (inputPy lamdaAttrs rest0 stFit "3" "2" 10 1).1.T_ex? = some 5 ∧
    (inputPy lamdaAttrs rest0 stFit "3" "2" 10 1).1.N_tot? = some 3 ∧
    (inputPy lamdaAttrs rest0 stFit "3" "2" 10 1).1 = stFit := by
  rw [inputPy_lamda]
  exact ⟨rfl, rfl, rfl, rfl, rfl⟩

/-- C6 amended: an input() call after a calc() does not invalidate the stored
fit attributes.  The class keeps no Fitted/HasData state, and input (which in
the current code raises TypeError at the database call before reaching its
append statements) leaves every stored fit attribute exactly as it was, so a
read of the fit after input() returns the previous values unchanged rather
than an invalidated result. -/
theorem C6_input_preserves_fit_fields
    (rest : DiagState → String → String → ℝ → ℝ → DiagState × Option String)
    (st : DiagState) (upper lower : String) (Ib IbErr : ℝ) :
    (inputPy lamdaAttrs rest st upper lower Ib IbErr).1.a? = st.a? ∧
    (inputPy lamdaAttrs rest st upper lower Ib IbErr).1.a_error? = st.a_error? ∧
    (inputPy lamdaAttrs rest st upper lower Ib IbErr).1.b? = st.b? ∧
    (inputPy lamdaAttrs rest st upper lower Ib IbErr).1.b_error? = st.b_error? ∧
    (inputPy lamdaAttrs rest st upper lower Ib IbErr).1.T_ex? = st.T_ex? ∧
    (inputPy lamdaAttrs rest st upper lower Ib IbErr).1.T_ex_error? =
      st.T_ex_error? ∧
    (inputPy lamdaAttrs rest st upper lower Ib IbErr).1.N_tot? = st.N_tot? ∧
    (inputPy lamdaAttrs rest st upper lower Ib IbErr).1.N_tot_error? =
      st.N_tot_error? := by
  rw [inputPy_lamda]
  exact ⟨rfl, rfl, rfl, rfl, rfl, rfl, rfl, rfl⟩

/- ### Claim C7 -/

/-- C7: the claim states that an input() call naming a transition absent from
the database fails with a LookupError and leaves the dataset unchanged.  In
the code no transition lookup ever happens: line 87 calls the database object
itself, which is not callable, so every input() call — whatever the level
pair — raises TypeError there.  The dataset is indeed left unchanged, but the
failure is a TypeError on every argument, not a LookupError naming the
missing transition. -/
theorem C7_input_type_error_before_lookup
    (rest : DiagState → String → String → ℝ → ℝ → DiagState × Option String)
    (st : DiagState) (upper lower : String) (Ib IbErr : ℝ) :
    inputPy lamdaAttrs rest st upper lower Ib IbErr = (st, some "TypeError") ∧
    (inputPy lamdaAttrs rest st upper lower Ib IbErr).1.x = st.x ∧
    (inputPy lamdaAttrs rest st upper lower Ib IbErr).1.y = st.y ∧
    (inputPy lamdaAttrs rest st upper lower Ib IbErr).2 ≠ some "LookupError" ∧
    (inputPy lamdaAttrs rest st upper lower Ib IbErr).2 ≠ some "KeyError" := by
  rw [inputPy_lamda]
  exact ⟨rfl, rfl, rfl, by simp, by simp⟩

/- ### Claim C8 -/

/-- C8 counterexample: on a stream with a well-formed levels block and no
RADIATIVE TRANSITIONS marker, parsing does not fail with a ParseError (no
exception of any name is raised): the skip loop reads past the end of the
stream forever, so parsing never terminates and no database — partial or
otherwise — is returned. -/
theorem C8_parse_error_counterexample :
    lamdaParse streamNoTrans = .error PErr.hang ∧
    PErr.hang ≠ PErr.exn "ParseError" := by
  exact ⟨by with_unfolding_all decide, by decide⟩

/-- C8 amended: on every stream whose levels block parses and whose remaining
lines nowhere match the RADIATIVE TRANSITIONS marker, the parser neither
returns a database nor raises: _skip_lines loops forever at end of stream
(readline keeps returning the empty string, which the pattern never matches),
so no ParseError is raised and, as the claim states, no partial database is
returned. -/
theorem C8_missing_marker_hangs (s s1 : List String) (lv : LevelsOD)
    (hlv : getEnergyLevels s = .ok (s1, lv))
    (hno : ∀ l ∈ s1, isTransMarker l = false) :
    lamdaParse s = .error PErr.hang := by
  have ht : getTransitions (lv.map Prod.fst) s1 = .error .hang := by
    simp only [getTransitions, skipLines_hang _ _ hno]
  simp only [lamdaParse, hlv, ht]

/-- C8 witness: the concrete marker-less stream satisfies the hypotheses (its
levels block parses to the two witness rows and leaves an empty remainder)
and the theorem shows its parse hangs. -/
theorem C8_missing_marker_hangs_witness :
    getEnergyLevels streamNoTrans = .ok ([], rowsW) ∧
    lamdaParse streamNoTrans = .error PErr.hang := by
  have h : getEnergyLevels streamNoTrans = .ok ([], rowsW) := by
    with_unfolding_all decide
  exact ⟨h, C8_missing_marker_hangs streamNoTrans [] rowsW h
    (by intro l hl; exact absurd hl (List.not_mem_nil l))⟩

/- ### Partition-function helper lemmas -/

/-- The Planck constant of the model is positive. -/
theorem planckH_pos : (0 : ℝ) < planckH := by norm_num [planckH]

/-- The speed of light of the model is positive. -/
theorem lightC_pos : (0 : ℝ) < lightC := by norm_num [lightC]

/-- The Boltzmann constant of the model is positive. -/
theorem boltzK_pos : (0 : ℝ) < boltzK := by norm_num [boltzK]

/-- A left fold of additions equals the initial value plus the list sum. -/
theorem foldl_add_eq_sum {α : Type} (f : α → ℝ) (l : List α) (c : ℝ) :
    l.foldl (fun acc x => acc + f x) c = c + (l.map f).sum := by
  induction l generalizing c with
  | nil => simp
  | cons a tl ih =>
      rw [List.foldl_cons, ih, List.map_cons, List.sum_cons]
      ring

/-- The partition sum written as a list sum. -/
theorem Zfun_eq_sum (db : LevelsOD) (T : ℝ) :
    Zfun db T = (db.map (fun p => Zterm T p.2)).sum := by
  unfold Zfun
  rw [foldl_add_eq_sum (fun p => Zterm T p.2) db 0, zero_add]

/-- A Boltzmann term with nonnegative weight and nonnegative energy is
monotone in the temperature. -/
theorem Zterm_le (v : LevelEntry) (T1 T2 : ℝ) (hw : 0 ≤ v.weight)
    (he : 0 ≤ v.energy) (h1 : 0 < T1) (h12 : T1 < T2) :
    Zterm T1 v ≤ Zterm T2 v := by
  unfold Zterm
  have hcast : (0 : ℝ) ≤ (v.energy : ℝ) := by exact_mod_cast he
  have hE : 0 ≤ planckH * lightC * ((v.energy : ℝ) * 100) :=
    mul_nonneg (mul_nonneg planckH_pos.le lightC_pos.le)
      (mul_nonneg hcast (by norm_num))
  have hwcast : (0 : ℝ) ≤ (v.weight : ℝ) := by exact_mod_cast hw
  apply mul_le_mul_of_nonneg_left _ hwcast
  apply Real.exp_le_exp.mpr
  rw [neg_div, neg_div, neg_le_neg_iff]
  exact div_le_div_of_nonneg_left hE (mul_pos boltzK_pos h1)
    (mul_le_mul_of_nonneg_left h12.le boltzK_pos.le)

/-- A Boltzmann term with positive weight and strictly positive energy is
strictly monotone in the temperature. -/
theorem Zterm_lt (v : LevelEntry) (T1 T2 : ℝ) (hw : 0 < v.weight)
    (he : 0 < v.energy) (h1 : 0 < T1) (h12 : T1 < T2) :
    Zterm T1 v < Zterm T2 v := by
  unfold Zterm
  have hcast : (0 : ℝ) < (v.energy : ℝ) := by exact_mod_cast he
  have hE : 0 < planckH * lightC * ((v.energy : ℝ) * 100) :=
    mul_pos (mul_pos planckH_pos lightC_pos) (mul_pos hcast (by norm_num))
  have hwcast : (0 : ℝ) < (v.weight : ℝ) := by exact_mod_cast hw
  apply mul_lt_mul_of_pos_left _ hwcast
  apply Real.exp_lt_exp.mpr
  rw [neg_div, neg_div, neg_lt_neg_iff]
  exact div_lt_div_of_pos_left hE (mul_pos boltzK_pos h1)
    (mul_lt_mul_of_pos_left h12 boltzK_pos)

/- ### Claim C9 -/

/-- C9 counterexample: a parsed database (the parse of the concrete one-level
stream is exhibited) whose single level has weight 1 > 0 and energy 0 has a
constant partition function: Z takes the same value at T = 1 and T = 2 with
0 < 1 < 2, so Z is not strictly increasing on the positive temperatures.
This is the ground state present in every LAMDA file; with it alone, every
term of the sum is temperature-independent. -/
theorem C9_Z_constant_counterexample :
    lamdaParse streamOne = .ok ⟨oneLevelDB, []⟩ ∧
    (∀ p ∈ oneLevelDB, 0 < p.2.weight) ∧
    (0 : ℝ) < 1 ∧ (1 : ℝ) < 2 ∧
    Zfun oneLevelDB 1 = Zfun oneLevelDB 2 := by
  refine ⟨by with_unfolding_all decide, by with_unfolding_all decide,
    by norm_num, by norm_num, ?_⟩
  norm_num [Zfun, Zterm, oneLevelDB, lvlA, List.foldl]

/-- C9 amended: for a database whose levels all have positive weight, the
partition function Z is strictly increasing on positive temperatures provided
the level energies are nonnegative and at least one is strictly positive (the
claim as stated fails when every energy is zero, in which case every
Boltzmann factor is constant). -/
theorem C9_Z_strict_mono (db : LevelsOD) (T1 T2 : ℝ)
    (hw : ∀ p ∈ db, 0 < p.2.weight) (he : ∀ p ∈ db, 0 ≤ p.2.energy)
    (hex : ∃ p ∈ db, 0 < p.2.energy) (h1 : 0 < T1) (h12 : T1 < T2) :
    Zfun db T1 < Zfun db T2 := by
  rw [Zfun_eq_sum, Zfun_eq_sum]
  apply List.sum_lt_sum
  · intro p hp
    exact Zterm_le p.2 T1 T2 (hw p hp).le (he p hp) h1 h12
  · obtain ⟨p, hp, hpe⟩ := hex
    exact ⟨p, hp, Zterm_lt p.2 T1 T2 (hw p hp) hpe h1 h12⟩

/-- C9 witness: the concrete two-level database (ground state plus one level
of positive energy, unit weights) satisfies every hypothesis, and Z is
strictly larger at T = 2 than at T = 1. -/
theorem C9_Z_strict_mono_witness :
    ((0 : ℝ) < 1 ∧ (1 : ℝ) < 2 ∧ (∀ p ∈ twoLevelDB, 0 < p.2.weight) ∧
      (∃ p ∈ twoLevelDB, 0 < p.2.energy)) ∧
    Zfun twoLevelDB 1 < Zfun twoLevelDB 2 := by
  have hw : ∀ p ∈ twoLevelDB, 0 < p.2.weight := by with_unfolding_all decide
  have he : ∀ p ∈ twoLevelDB, 0 ≤ p.2.energy := by with_unfolding_all decide
  have hex : ∃ p ∈ twoLevelDB, 0 < p.2.energy := by with_unfolding_all decide
  exact ⟨⟨by norm_num, by norm_num, hw, hex⟩,
    C9_Z_strict_mono twoLevelDB 1 2 hw he hex (by norm_num) (by norm_num)⟩

/- ### Claim C10 -/

/-- C10: the publicly exported PopDiagram class has a calc() whose body is
pass: it returns None and leaves the whole instance state (database reference
and stored items) unchanged; the class defines no input() method and inherits
none from OrderedDict; the accumulate-and-fit behaviour lives only on the
module-private class, which the module export list does not name. -/
theorem C10_public_popdiagram_inert :
    (∀ st : PDState, popDiagramCalc st = (st, none)) ∧
    "input" ∉ popDiagramClassAttrs ∧
    "input" ∉ orderedDictMethods ∧
    "input" ∈ privatePopDiagramAttrs ∧
    diagramModuleAll = ["PopDiagram"] ∧
    "_PopDiagram" ∉ diagramModuleAll := by
  exact ⟨fun st => rfl, by decide, by decide, by decide, rfl, by decide⟩

end Dpop
